import Mathlib

/-!
Shallow embedding of the session-proxy core of the `thopper` repository.

The main model follows the WebSocket/node-pty variant of the proxy
(`setupPtyWebSocket` in the unnamed server file, called part_009 below):
one pty process is spawned per WebSocket connection, a global
`sessions : Map<WebSocket, TerminalSession>` registry maps each socket to
its `{ ptyProcess, ws, isAlive }` record, a 15-second interval scans all
clients for heartbeat liveness, and per-connection handlers react to
`pong`, pty `data`, pty `exit`, client `message`, socket `close` and
socket `error` events.

A second, smaller model follows the socket.io variant
(`src/server/pty.ts`): a single Python game-server process is spawned at
setup time and every browser connection gets its own socket.io client
connection to that one shared process.

WebSocket identities and process ids are modelled as natural numbers;
the registries are association lists.
-/

namespace Thopper

/-- Association-list lookup keyed by connection / process identity. -/
def lookupA {β : Type} (k : Nat) : List (Nat × β) → Option β
  | [] => none
  | (k2, v) :: rest => if k = k2 then some v else lookupA k rest

/-- Insert-or-replace, the effect of `Map.prototype.set`. -/
def setAssoc {β : Type} (k : Nat) (v : β) : List (Nat × β) → List (Nat × β)
  | [] => [(k, v)]
  | (k2, v2) :: rest =>
    if k = k2 then (k, v) :: rest else (k2, v2) :: setAssoc k v rest

/-- Delete a key, the effect of `Map.prototype.delete`. -/
def removeAssoc {β : Type} (k : Nat) : List (Nat × β) → List (Nat × β)
  | [] => []
  | (k2, v2) :: rest =>
    if k = k2 then removeAssoc k rest else (k2, v2) :: removeAssoc k rest

/-- Update the value at a key in place when present, the effect of field
mutation through `map.get(k)`. -/
def mapAssoc {β : Type} (k : Nat) (f : β → β) : List (Nat × β) → List (Nat × β)
  | [] => []
  | (k2, v) :: rest =>
    if k = k2 then (k2, f v) :: mapAssoc k f rest
    else (k2, v) :: mapAssoc k f rest

/-- JavaScript `x || d` on an optional numeric field: `undefined`/absent and
`0` are falsy and select the default. -/
def jsOr (x : Option Nat) (d : Nat) : Nat :=
  match x with
  | none => d
  | some n => if n = 0 then d else n

/-- One spawned pty backend process (`pty.spawn("python", [gamePath], ...)`
with `cols: 80, rows: 24`): whether it is still running, the data written to
its input, and its current terminal dimensions. -/
structure PtyProc where
  running : Bool
  written : List String
  cols : Nat
  rows : Nat
deriving DecidableEq

/-- One WebSocket connection as the server sees it: `readyState === OPEN`,
the pty handle captured by this connection's handlers, the frames sent to
the client, the close code the server passed to a close call (the part_009
server never calls `ws.close(code)`, so it can only stay `none`), and the
number of protocol pings sent. -/
structure Conn where
  isOpen : Bool
  ptyId : Nat
  sent : List String
  sentCloseCode : Option Nat
  pings : Nat
deriving DecidableEq

/-- A `TerminalSession` registry record: `{ ptyProcess, ws, isAlive }`
(the `ws` field is the key of the registry entry and is kept implicit). -/
structure Session where
  ptyId : Nat
  isAlive : Bool
deriving DecidableEq

/-- A client message after `JSON.parse` and the `msg.type` dispatch:
`input`, `resize`, `ping`, a parsed envelope with an unrecognized type,
or an unparseable frame (`JSON.parse` throws). -/
inductive ClientMsg
  | input (data : String)
  | resize (cols rows : Option Nat)
  | ping
  | other (kind : String)
  | malformed
deriving DecidableEq

/-- The whole server state of the part_009 proxy: the `sessions` registry,
the set of WebSocket connections, the process table, the pid allocator and
the console log. -/
structure ServerState where
  sessions : List (Nat × Session)
  conns : List (Nat × Conn)
  procs : List (Nat × PtyProc)
  nextPid : Nat
  log : List String
deriving DecidableEq

/-- The server before any client connects. -/
def initState : ServerState :=
  { sessions := [], conns := [], procs := [], nextPid := 0, log := [] }

/-- The final notice `ptyProcess.onExit` sends while the socket is open. -/
def sessionEndedNotice : String :=
  "\r\n\x1b[33mGame session ended. Refresh to start a new game.\x1b[0m\r\n"

/-- The warning logged when `JSON.parse` throws in the message handler. -/
def parseWarning : String := "Failed to parse WebSocket message"

/-- Mark a pty process as no longer running; `kill` on an already exited
process stays a no-op. -/
def killProc (pid : Nat) : List (Nat × PtyProc) → List (Nat × PtyProc) :=
  mapAssoc pid (fun p => { p with running := false })

/-- Mark a connection closed (its `readyState` leaves OPEN). -/
def markClosed (w : Nat) : List (Nat × Conn) → List (Nat × Conn) :=
  mapAssoc w (fun c => { c with isOpen := false })

/-- Handler `wss.on("connection", ...)`: spawn a fresh pty with initial dimensions
80x24, then `sessions.set(ws, { ptyProcess, ws, isAlive: true })`. -/
def onConnect (s : ServerState) (w : Nat) : ServerState :=
  let pid := s.nextPid
  { s with
    procs := setAssoc pid { running := true, written := [], cols := 80, rows := 24 } s.procs
    conns := setAssoc w
      { isOpen := true, ptyId := pid, sent := [], sentCloseCode := none, pings := 0 } s.conns
    sessions := setAssoc w { ptyId := pid, isAlive := true } s.sessions
    nextPid := pid + 1 }

/-- Handler `ws.on("pong", ...)`: look the session up and set `isAlive = true`. -/
def onPong (s : ServerState) (w : Nat) : ServerState :=
  { s with sessions := mapAssoc w (fun sess => { sess with isAlive := true }) s.sessions }

/-- Handler `ptyProcess.onData`: forward the chunk iff `ws.readyState === OPEN`. -/
def onData (s : ServerState) (w : Nat) (d : String) : ServerState :=
  match lookupA w s.conns with
  | none => s
  | some c =>
    if c.isOpen then
      { s with conns := mapAssoc w (fun c2 => { c2 with sent := c2.sent ++ [d] }) s.conns }
    else s

/-- Handler `ptyProcess.onExit`: the process is now exited; the handler logs the
exit and, iff the socket is still open, sends `sessionEndedNotice`.
Nothing else happens: no close call, no registry removal. -/
def onExit (s : ServerState) (w : Nat) : ServerState :=
  match lookupA w s.conns with
  | none => s
  | some c =>
    let s1 := { s with
      procs := killProc c.ptyId s.procs
      log := s.log ++ ["Game process exited"] }
    if c.isOpen then
      { s1 with conns := mapAssoc w (fun c2 => { c2 with sent := c2.sent ++ [sessionEndedNotice] }) s1.conns }
    else s1

/-- Handler `ws.on("message", ...)`: JSON-parse then dispatch on `msg.type`;
`input` writes to the captured pty, `resize` resizes it with `|| 80` and
`|| 24` defaults, `ping` marks the session alive, an unknown type does
nothing, and a parse failure only logs a warning. -/
def onMessage (s : ServerState) (w : Nat) (m : ClientMsg) : ServerState :=
  match m with
  | .malformed => { s with log := s.log ++ [parseWarning] }
  | .other _ => s
  | .ping =>
    { s with sessions := mapAssoc w (fun sess => { sess with isAlive := true }) s.sessions }
  | .input d =>
    match lookupA w s.conns with
    | none => s
    | some c =>
      { s with procs := mapAssoc c.ptyId (fun p => { p with written := p.written ++ [d] }) s.procs }
  | .resize cols rows =>
    match lookupA w s.conns with
    | none => s
    | some c =>
      { s with procs :=
          mapAssoc c.ptyId (fun p => { p with cols := jsOr cols 80, rows := jsOr rows 24 }) s.procs }

/-- The body shared by `ws.on("close")` and `ws.on("error")`: if the
registry holds a session for this socket, kill its pty and delete the
entry. -/
def closeHandler (s : ServerState) (w : Nat) : ServerState :=
  match lookupA w s.sessions with
  | none => s
  | some sess =>
    { s with
      procs := killProc sess.ptyId s.procs
      sessions := removeAssoc w s.sessions }

/-- A client connection closing: the socket leaves OPEN, then the close
handler runs. -/
def onClose (s : ServerState) (w : Nat) : ServerState :=
  closeHandler { s with conns := markClosed w s.conns } w

/-- One iteration of the heartbeat `setInterval` body for one client:
if a session exists, a dead liveness record means `ws.terminate()` (which
fires the close path), otherwise the record is reset to `false` and a
protocol ping is sent. -/
def scanOne (s : ServerState) (w : Nat) : ServerState :=
  match lookupA w s.sessions with
  | none => s
  | some sess =>
    if sess.isAlive then
      { s with
        sessions := mapAssoc w (fun s2 => { s2 with isAlive := false }) s.sessions
        conns := mapAssoc w (fun c => { c with pings := c.pings + 1 }) s.conns }
    else
      onClose s w

/-- The keys of `wss.clients`: the currently open connections, each socket
once (`wss.clients` is a Set). -/
def openKeys (s : ServerState) : List Nat :=
  ((s.conns.filter (fun kc => kc.2.isOpen)).map Prod.fst).dedup

/-- One tick of the 15-second heartbeat interval: scan every client. -/
def scan (s : ServerState) : ServerState :=
  (openKeys s).foldl scanOne s

/-- The observable events driving the part_009 proxy. -/
inductive Event
  | connect (w : Nat)
  | pong (w : Nat)
  | data (w : Nat) (d : String)
  | procExit (w : Nat)
  | message (w : Nat) (m : ClientMsg)
  | close (w : Nat)
  | error (w : Nat)
  | tick
deriving DecidableEq

/-- The deterministic event dispatcher of the proxy. -/
def step (s : ServerState) (e : Event) : ServerState :=
  match e with
  | .connect w => onConnect s w
  | .pong w => onPong s w
  | .data w d => onData s w d
  | .procExit w => onExit s w
  | .message w m => onMessage s w m
  | .close w => onClose s w
  | .error w => onClose s w
  | .tick => scan s

/-- Run the proxy from boot over a sequence of events. -/
def run (es : List Event) : ServerState := es.foldl step initState

/-- The states the proxy can actually be in. -/
inductive Reachable : ServerState → Prop
  | init : Reachable initState
  | next {s : ServerState} (e : Event) : Reachable s → Reachable (step s e)

/-- Whether a process table holds pid as a currently running process. -/
def runningIn (procs : List (Nat × PtyProc)) (pid : Nat) : Bool :=
  match lookupA pid procs with
  | some p => p.running
  | none => false

/-- Whether the server's process table holds pid as a currently running
process. -/
def procRunning (s : ServerState) (pid : Nat) : Bool :=
  runningIn s.procs pid

/-! ## The socket.io variant (`src/server/pty.ts`)

`setupPtyWebSocket` there spawns one Python game-server process
(`spawn("python", [serverPath], ...)` listening on port 5001) at setup
time, and `io.on("connection", ...)` gives each browser socket its own
socket.io client connection to `http://127.0.0.1:5001` — that is, to the
single shared Python process — stored in
`clientSockets : Map<string, ClientSocket>`.  Browser-socket ids are
modelled as naturals. -/

/-- The pid of the one `pythonServer` process spawned at setup. -/
def sharedPythonPid : Nat :=  0

/-- The error notice emitted on `connect_error`:
`{ type: "error", data: { message: "Failed to connect to game server" } }`. -/
def connectErrorNotice : String := "Failed to connect to game server"

/-- The per-browser-connection proxy state: the browser socket, what was
emitted to it, and the socket.io client's remaining automatic reconnection
attempts (`reconnection: true, reconnectionAttempts: 5`). -/
structure ProxyClient where
  browserOpen : Bool
  browserSent : List String
  attemptsLeft : Nat
deriving DecidableEq

/-- The whole state of the socket.io proxy: the single Python server
process and the `clientSockets` registry. -/
structure SharedProxy where
  pythonRunning : Bool
  clientSockets : List (Nat × ProxyClient)
deriving DecidableEq

/-- The state right after `setupPtyWebSocket`: the one Python game server
has been spawned and no browser has connected yet. -/
def sharedSetup : SharedProxy :=
  { pythonRunning := true, clientSockets := [] }

/-- Handler `io.on("connection", browserSocket)`: create a socket.io client bound
for the shared Python server with 5 reconnection attempts, and register it
under the browser socket's id. -/
def onBrowserConnect (st : SharedProxy) (id : Nat) : SharedProxy :=
  { st with clientSockets :=
      setAssoc id { browserOpen := true, browserSent := [], attemptsLeft := 5 } st.clientSockets }

/-- Handler `pythonSocket.on("connect_error", ...)`: emit the error notice to the
browser socket; the socket.io manager then consumes one of the remaining
automatic reconnection attempts.  The browser transport is not closed and
the registry entry is not removed. -/
def onConnectError (st : SharedProxy) (id : Nat) : SharedProxy :=
  let emitAndRetry := fun (pc : ProxyClient) =>
    { pc with
      browserSent := pc.browserSent ++ [connectErrorNotice]
      attemptsLeft := pc.attemptsLeft - 1 }
  { st with clientSockets := mapAssoc id emitAndRetry st.clientSockets }

/-- Handler `browserSocket.on("disconnect", ...)`: disconnect the python-side
socket and delete the registry entry. -/
def onBrowserDisconnect (st : SharedProxy) (id : Nat) : SharedProxy :=
  { st with clientSockets := removeAssoc id st.clientSockets }

/-- The backend process serving a registered browser connection in the
socket.io variant: every `pythonSocket` targets `http://127.0.0.1:5001`,
the one shared Python server. -/
def backendOf (st : SharedProxy) (id : Nat) : Option Nat :=
  match lookupA id st.clientSockets with
  | some _ => some sharedPythonPid
  | none => none

/-! ## The client's view of close codes (`client/src/pages/terminal.tsx`) -/

/-- The connection status the terminal page displays. -/
inductive ConnStatus
  | connecting
  | connected
  | disconnected
  | errorStatus
  | ended
deriving DecidableEq

/-- Handler `ws.onclose`: the client reports "Game Ended" exactly on close code
1000 and "Disconnected" on every other code. -/
def statusOnClose (code : Nat) : ConnStatus :=
  if code = 1000 then .ended else .disconnected

/-! ## Association-list lemmas -/

theorem lookupA_setAssoc_self {β : Type} (k : Nat) (v : β) (l : List (Nat × β)) :
    lookupA k (setAssoc k v l) = some v := by
  induction l with
  | nil => simp [lookupA, setAssoc]
  | cons hd tl ih =>
    by_cases h : k = hd.1
    · simp [setAssoc, lookupA, h]
    · simp [setAssoc, lookupA, h, ih]

theorem lookupA_setAssoc_ne {β : Type} {k k2 : Nat} (v : β) (l : List (Nat × β))
    (h : k ≠ k2) : lookupA k (setAssoc k2 v l) = lookupA k l := by
  induction l with
  | nil => simp [lookupA, setAssoc, h]
  | cons hd tl ih =>
    by_cases h2 : k2 = hd.1
    · subst h2
      simp [setAssoc, lookupA, h]
    · by_cases h3 : k = hd.1
      · simp [setAssoc, lookupA, h2, h3]
      · simp [setAssoc, lookupA, h2, h3, ih]

theorem lookupA_mapAssoc_self {β : Type} (k : Nat) (f : β → β) (l : List (Nat × β)) :
    lookupA k (mapAssoc k f l) = (lookupA k l).map f := by
  induction l with
  | nil => simp [lookupA, mapAssoc]
  | cons hd tl ih =>
    by_cases h : k = hd.1
    · simp [mapAssoc, lookupA, h]
    · simp [mapAssoc, lookupA, h, ih]

theorem lookupA_mapAssoc_ne {β : Type} {k k2 : Nat} (f : β → β) (l : List (Nat × β))
    (h : k ≠ k2) : lookupA k (mapAssoc k2 f l) = lookupA k l := by
  induction l with
  | nil => simp [lookupA, mapAssoc]
  | cons hd tl ih =>
    by_cases h2 : k2 = hd.1
    · subst h2
      simp [mapAssoc, lookupA, h, ih]
    · by_cases h3 : k = hd.1
      · simp [mapAssoc, lookupA, h2, h3]
      · simp [mapAssoc, lookupA, h2, h3, ih]

theorem lookupA_removeAssoc_self {β : Type} (k : Nat) (l : List (Nat × β)) :
    lookupA k (removeAssoc k l) = none := by
  induction l with
  | nil => simp [lookupA, removeAssoc]
  | cons hd tl ih =>
    by_cases h : k = hd.1
    · subst h
      simp [removeAssoc, lookupA, ih]
    · simp [removeAssoc, lookupA, h, ih]

theorem lookupA_removeAssoc_ne {β : Type} {k k2 : Nat} (l : List (Nat × β))
    (h : k ≠ k2) : lookupA k (removeAssoc k2 l) = lookupA k l := by
  induction l with
  | nil => simp [lookupA, removeAssoc]
  | cons hd tl ih =>
    by_cases h2 : k2 = hd.1
    · subst h2
      simp [removeAssoc, lookupA, h, ih]
    · by_cases h3 : k = hd.1
      · simp [removeAssoc, lookupA, h2, h3]
      · simp [removeAssoc, lookupA, h2, h3, ih]

/-! ## Per-connection process isolation in the node-pty variant

Every `connection` event runs its own `pty.spawn`, so the pty handle each
registry entry holds is allocated freshly.  We prove the registry never
maps two distinct sockets to the same pty process, via the invariant that
all registered pids are below the allocator and pairwise distinct. -/

/-- Every registered session's pty id has already been allocated. -/
def pidBound (s : ServerState) : Prop :=
  ∀ w sess, lookupA w s.sessions = some sess → sess.ptyId < s.nextPid

/-- Distinct registered sockets hold distinct pty processes. -/
def distinctPids (s : ServerState) : Prop :=
  ∀ w1 w2 s1 s2, w1 ≠ w2 → lookupA w1 s.sessions = some s1 →
    lookupA w2 s.sessions = some s2 → s1.ptyId ≠ s2.ptyId

/-- The isolation invariant of the sessions registry. -/
def Inv (s : ServerState) : Prop := pidBound s ∧ distinctPids s

/-- Refinement: `new` refines `old` when every entry of `new` sits at a key `old`
also maps, with the same pty id. -/
def PidRefines (old new : List (Nat × Session)) : Prop :=
  ∀ w sess, lookupA w new = some sess →
    ∃ s0, lookupA w old = some s0 ∧ s0.ptyId = sess.ptyId

theorem pidRefines_refl (l : List (Nat × Session)) : PidRefines l l :=
  fun _ sess h => ⟨sess, h, rfl⟩

theorem pidRefines_trans {a b c : List (Nat × Session)}
    (h1 : PidRefines a b) (h2 : PidRefines b c) : PidRefines a c := by
  intro w sess h
  obtain ⟨s1, hb, e1⟩ := h2 w sess h
  obtain ⟨s0, ha, e0⟩ := h1 w s1 hb
  exact ⟨s0, ha, e0.trans e1⟩

theorem pidRefines_mapAssoc (k : Nat) (f : Session → Session)
    (hf : ∀ x, (f x).ptyId = x.ptyId) (l : List (Nat × Session)) :
    PidRefines l (mapAssoc k f l) := by
  intro w sess h
  by_cases hw : w = k
  · subst hw
    rw [lookupA_mapAssoc_self, Option.map_eq_some'] at h
    obtain ⟨s0, h0, hfs⟩ := h
    exact ⟨s0, h0, by rw [← hfs, hf]⟩
  · rw [lookupA_mapAssoc_ne _ _ hw] at h
    exact ⟨sess, h, rfl⟩

theorem pidRefines_removeAssoc (k : Nat) (l : List (Nat × Session)) :
    PidRefines l (removeAssoc k l) := by
  intro w sess h
  by_cases hw : w = k
  · subst hw
    rw [lookupA_removeAssoc_self] at h
    simp at h
  · rw [lookupA_removeAssoc_ne _ hw] at h
    exact ⟨sess, h, rfl⟩

theorem inv_mono {s t : ServerState} (hr : PidRefines s.sessions t.sessions)
    (hn : s.nextPid ≤ t.nextPid) (hi : Inv s) : Inv t := by
  obtain ⟨hb, hd⟩ := hi
  constructor
  · intro w sess h
    obtain ⟨s0, h0, e0⟩ := hr w sess h
    exact e0 ▸ Nat.lt_of_lt_of_le (hb w s0 h0) hn
  · intro w1 w2 s1 s2 hne h1 h2
    obtain ⟨t1, g1, e1⟩ := hr w1 s1 h1
    obtain ⟨t2, g2, e2⟩ := hr w2 s2 h2
    exact e1 ▸ e2 ▸ hd w1 w2 t1 t2 hne g1 g2

theorem closeHandler_sessions (s : ServerState) (w : Nat) :
    PidRefines s.sessions (closeHandler s w).sessions ∧
      (closeHandler s w).nextPid = s.nextPid := by
  unfold closeHandler
  cases lookupA w s.sessions with
  | none => exact ⟨pidRefines_refl _, rfl⟩
  | some sess => exact ⟨pidRefines_removeAssoc _ _, rfl⟩

theorem onClose_sessions (s : ServerState) (w : Nat) :
    PidRefines s.sessions (onClose s w).sessions ∧
      (onClose s w).nextPid = s.nextPid := by
  unfold onClose
  exact closeHandler_sessions { s with conns := markClosed w s.conns } w

theorem scanOne_sessions (s : ServerState) (w : Nat) :
    PidRefines s.sessions (scanOne s w).sessions ∧
      (scanOne s w).nextPid = s.nextPid := by
  unfold scanOne
  split
  · exact ⟨pidRefines_refl _, rfl⟩
  · split
    · exact ⟨pidRefines_mapAssoc w (fun s2 => { s2 with isAlive := false })
        (fun x => rfl) s.sessions, rfl⟩
    · exact onClose_sessions s w

theorem foldl_scanOne_sessions (L : List Nat) (s : ServerState) :
    PidRefines s.sessions (L.foldl scanOne s).sessions ∧
      (L.foldl scanOne s).nextPid = s.nextPid := by
  induction L generalizing s with
  | nil => exact ⟨pidRefines_refl _, rfl⟩
  | cons hd tl ih =>
    obtain ⟨r1, n1⟩ := scanOne_sessions s hd
    obtain ⟨r2, n2⟩ := ih (scanOne s hd)
    exact ⟨pidRefines_trans r1 r2, n2.trans n1⟩

theorem onData_sessions (s : ServerState) (w : Nat) (d : String) :
    (onData s w d).sessions = s.sessions ∧ (onData s w d).nextPid = s.nextPid := by
  unfold onData
  split
  · exact ⟨rfl, rfl⟩
  · split
    · exact ⟨rfl, rfl⟩
    · exact ⟨rfl, rfl⟩

theorem onExit_sessions (s : ServerState) (w : Nat) :
    (onExit s w).sessions = s.sessions ∧ (onExit s w).nextPid = s.nextPid := by
  unfold onExit
  split
  · exact ⟨rfl, rfl⟩
  · split
    · exact ⟨rfl, rfl⟩
    · exact ⟨rfl, rfl⟩

theorem inv_congr {s t : ServerState} (hs : t.sessions = s.sessions)
    (hn : t.nextPid = s.nextPid) (hi : Inv s) : Inv t :=
  inv_mono (hs ▸ pidRefines_refl s.sessions) (Nat.le_of_eq hn.symm) hi

theorem onConnect_sessions (s : ServerState) (w : Nat) :
    (onConnect s w).sessions
      = setAssoc w { ptyId := s.nextPid, isAlive := true } s.sessions := rfl

theorem onConnect_nextPid (s : ServerState) (w : Nat) :
    (onConnect s w).nextPid = s.nextPid + 1 := rfl

theorem inv_onConnect (s : ServerState) (w : Nat) (hi : Inv s) :
    Inv (onConnect s w) := by
  obtain ⟨hb, hd⟩ := hi
  constructor
  · intro w2 sess h
    rw [onConnect_sessions] at h
    rw [onConnect_nextPid]
    by_cases hw : w2 = w
    · subst hw
      rw [lookupA_setAssoc_self] at h
      cases h
      exact Nat.lt_succ_self _
    · rw [lookupA_setAssoc_ne _ _ hw] at h
      exact Nat.lt_succ_of_lt (hb w2 sess h)
  · intro w1 w2 s1 s2 hne h1 h2
    rw [onConnect_sessions] at h1 h2
    by_cases e1 : w1 = w
    · by_cases e2 : w2 = w
      · exact absurd (e1.trans e2.symm) hne
      · rw [e1, lookupA_setAssoc_self] at h1
        rw [lookupA_setAssoc_ne _ _ e2] at h2
        cases h1
        exact Nat.ne_of_gt (hb w2 s2 h2)
    · rw [lookupA_setAssoc_ne _ _ e1] at h1
      by_cases e2 : w2 = w
      · rw [e2, lookupA_setAssoc_self] at h2
        cases h2
        exact Nat.ne_of_lt (hb w1 s1 h1)
      · rw [lookupA_setAssoc_ne _ _ e2] at h2
        exact hd w1 w2 s1 s2 hne h1 h2

theorem inv_step (s : ServerState) (e : Event) (hi : Inv s) : Inv (step s e) := by
  cases e with
  | connect w => exact inv_onConnect s w hi
  | pong w =>
    exact inv_mono
      (pidRefines_mapAssoc w (fun sess => { sess with isAlive := true })
        (fun x => rfl) s.sessions) (Nat.le_refl _) hi
  | data w d =>
    obtain ⟨hs, hn⟩ := onData_sessions s w d
    exact inv_congr hs hn hi
  | procExit w =>
    obtain ⟨hs, hn⟩ := onExit_sessions s w
    exact inv_congr hs hn hi
  | message w m =>
    cases m with
    | malformed => exact inv_congr rfl rfl hi
    | other k => exact inv_congr rfl rfl hi
    | ping =>
      exact inv_mono
        (pidRefines_mapAssoc w (fun sess => { sess with isAlive := true })
          (fun x => rfl) s.sessions) (Nat.le_refl _) hi
    | input d =>
      show Inv (onMessage s w (.input d))
      unfold onMessage
      cases lookupA w s.conns with
      | none => exact hi
      | some c => exact inv_congr rfl rfl hi
    | resize cols rows =>
      show Inv (onMessage s w (.resize cols rows))
      unfold onMessage
      cases lookupA w s.conns with
      | none => exact hi
      | some c => exact inv_congr rfl rfl hi
  | close w =>
    obtain ⟨hr, hn⟩ := onClose_sessions s w
    exact inv_mono hr (Nat.le_of_eq hn.symm) hi
  | error w =>
    obtain ⟨hr, hn⟩ := onClose_sessions s w
    exact inv_mono hr (Nat.le_of_eq hn.symm) hi
  | tick =>
    obtain ⟨hr, hn⟩ := foldl_scanOne_sessions (openKeys s) s
    exact inv_mono hr (Nat.le_of_eq hn.symm) hi

theorem inv_init : Inv initState := by
  constructor
  · intro w sess h
    simp [initState, lookupA] at h
  · intro w1 w2 s1 s2 hne h1 h2
    simp [initState, lookupA] at h1

theorem inv_reachable {s : ServerState} (h : Reachable s) : Inv s := by
  induction h with
  | init => exact inv_init
  | next e _ ih => exact inv_step _ e ih

/-! ## The heartbeat scan, key by key -/

theorem lookupA_mem {β : Type} {k : Nat} {v : β} {l : List (Nat × β)}
    (h : lookupA k l = some v) : (k, v) ∈ l := by
  induction l with
  | nil => simp [lookupA] at h
  | cons hd tl ih =>
    by_cases hk : k = hd.1
    · subst hk
      simp only [lookupA, if_pos rfl] at h
      cases h
      exact List.mem_cons_self _ _
    · simp only [lookupA, if_neg hk] at h
      exact List.mem_cons_of_mem _ (ih h)

/-- An open connection is among the scanned clients. -/
theorem mem_openKeys {s : ServerState} {w : Nat} {c : Conn}
    (hc : lookupA w s.conns = some c) (ho : c.isOpen = true) : w ∈ openKeys s := by
  unfold openKeys
  rw [List.mem_dedup]
  exact List.mem_map.mpr ⟨(w, c), List.mem_filter.mpr ⟨lookupA_mem hc, by simpa using ho⟩, rfl⟩

/-- Scanning another client leaves this client's registry entry and
connection untouched. -/
theorem scanOne_frame (s : ServerState) {w w2 : Nat} (h : w ≠ w2) :
    lookupA w (scanOne s w2).sessions = lookupA w s.sessions ∧
      lookupA w (scanOne s w2).conns = lookupA w s.conns := by
  unfold scanOne onClose closeHandler markClosed
  split
  · exact ⟨rfl, rfl⟩
  · split
    · exact ⟨lookupA_mapAssoc_ne _ _ h, lookupA_mapAssoc_ne _ _ h⟩
    · split
      · exact ⟨rfl, lookupA_mapAssoc_ne _ _ h⟩
      · exact ⟨lookupA_removeAssoc_ne _ h, lookupA_mapAssoc_ne _ _ h⟩

theorem foldl_scanOne_frame (L : List Nat) (s : ServerState) {w : Nat} (hw : w ∉ L) :
    lookupA w (L.foldl scanOne s).sessions = lookupA w s.sessions ∧
      lookupA w (L.foldl scanOne s).conns = lookupA w s.conns := by
  induction L generalizing s with
  | nil => exact ⟨rfl, rfl⟩
  | cons hd tl ih =>
    have hne : w ≠ hd := fun h => hw (h ▸ List.mem_cons_self hd tl)
    have htl : w ∉ tl := fun h => hw (List.mem_cons_of_mem hd h)
    obtain ⟨f1, f2⟩ := scanOne_frame s hne
    obtain ⟨g1, g2⟩ := ih (scanOne s hd) htl
    exact ⟨g1.trans f1, g2.trans f2⟩

/-- Killing any process never resurrects pid. -/
theorem runningIn_killProc (procs : List (Nat × PtyProc)) (pid pid2 : Nat)
    (h : runningIn procs pid = false) : runningIn (killProc pid2 procs) pid = false := by
  unfold runningIn at h
  unfold runningIn killProc
  by_cases hp : pid = pid2
  · subst hp
    rw [lookupA_mapAssoc_self]
    cases lookupA pid procs <;> simp
  · rw [lookupA_mapAssoc_ne _ _ hp]
    exact h

/-- A scan step never restarts a process. -/
theorem scanOne_not_running (s : ServerState) (w2 pid : Nat)
    (h : procRunning s pid = false) : procRunning (scanOne s w2) pid = false := by
  unfold scanOne onClose closeHandler
  split
  · exact h
  · split
    · exact h
    · split
      · exact h
      · exact runningIn_killProc _ _ _ h

theorem foldl_scanOne_not_running (L : List Nat) (s : ServerState) (pid : Nat)
    (h : procRunning s pid = false) : procRunning (L.foldl scanOne s) pid = false := by
  induction L generalizing s with
  | nil => exact h
  | cons hd tl ih => exact ih (scanOne s hd) (scanOne_not_running s hd pid h)

/-- Split the scanned client list around one of its members. -/
theorem openKeys_split {s : ServerState} {w : Nat} (hw : w ∈ openKeys s) :
    ∃ L1 L2, openKeys s = L1 ++ w :: L2 ∧ w ∉ L1 ∧ w ∉ L2 := by
  have hnd : (openKeys s).Nodup := List.nodup_dedup _
  obtain ⟨L1, L2, hL⟩ := List.append_of_mem hw
  refine ⟨L1, L2, hL, ?_, ?_⟩
  · intro hmem
    rw [hL, List.nodup_append] at hnd
    exact hnd.2.2 hmem (List.mem_cons_self _ _)
  · intro hmem
    rw [hL, List.nodup_append] at hnd
    exact (List.nodup_cons.mp hnd.2.1).1 hmem

/-- One scan step on a session whose record is `true`. -/
theorem scanOne_eq_alive (t : ServerState) {w : Nat} {sess : Session}
    (hs : lookupA w t.sessions = some sess) (ha : sess.isAlive = true) :
    scanOne t w
      = { t with
          sessions := mapAssoc w (fun s2 => { s2 with isAlive := false }) t.sessions
          conns := mapAssoc w (fun c => { c with pings := c.pings + 1 }) t.conns } := by
  unfold scanOne
  rw [hs]
  simp only [ha, if_true]

/-- One scan step on a session whose record is `false`: `ws.terminate()`
fires the close path. -/
theorem scanOne_eq_dead (t : ServerState) {w : Nat} {sess : Session}
    (hs : lookupA w t.sessions = some sess) (ha : sess.isAlive = false) :
    scanOne t w = onClose t w := by
  unfold scanOne
  rw [hs]
  simp only [ha, Bool.false_eq_true, if_false]

/-- The close handler when the registry still holds the session. -/
theorem closeHandler_eq_some (t : ServerState) {w : Nat} {sess : Session}
    (hs : lookupA w t.sessions = some sess) :
    closeHandler t w
      = { t with
          procs := killProc sess.ptyId t.procs
          sessions := removeAssoc w t.sessions } := by
  unfold closeHandler
  rw [hs]

/-- What one tick does to a session whose record is `true`: the record is
reset and one more protocol ping goes out on its (still open) socket. -/
theorem scan_alive (s : ServerState) {w : Nat} {sess : Session} {c : Conn}
    (hs : lookupA w s.sessions = some sess) (ha : sess.isAlive = true)
    (hc : lookupA w s.conns = some c) (ho : c.isOpen = true) :
    lookupA w (scan s).sessions = some { sess with isAlive := false } ∧
      lookupA w (scan s).conns = some { c with pings := c.pings + 1 } := by
  obtain ⟨L1, L2, hL, h1, h2⟩ := openKeys_split (mem_openKeys hc ho)
  obtain ⟨f1, f2⟩ := foldl_scanOne_frame L1 s h1
  have e1 : scan s = List.foldl scanOne (scanOne (List.foldl scanOne s L1) w) L2 := by
    unfold scan
    rw [hL, List.foldl_append, List.foldl_cons]
  rw [e1, scanOne_eq_alive (L1.foldl scanOne s) (f1.trans hs) ha]
  obtain ⟨g1, g2⟩ := foldl_scanOne_frame L2
    ({ L1.foldl scanOne s with
       sessions := mapAssoc w (fun s2 => { s2 with isAlive := false })
         (L1.foldl scanOne s).sessions
       conns := mapAssoc w (fun c2 => { c2 with pings := c2.pings + 1 })
         (L1.foldl scanOne s).conns }) h2
  rw [g1, g2]
  constructor
  · show lookupA w (mapAssoc w (fun s2 => { s2 with isAlive := false })
      (L1.foldl scanOne s).sessions) = _
    rw [lookupA_mapAssoc_self, f1, hs]
    rfl
  · show lookupA w (mapAssoc w (fun c2 => { c2 with pings := c2.pings + 1 })
      (L1.foldl scanOne s).conns) = _
    rw [lookupA_mapAssoc_self, f2, hc]
    rfl

/-- What one tick does to a session whose record is `false`: the socket is
terminated, the pty killed, and the registry entry removed. -/
theorem scan_dead (s : ServerState) {w : Nat} {sess : Session} {c : Conn}
    (hs : lookupA w s.sessions = some sess) (ha : sess.isAlive = false)
    (hc : lookupA w s.conns = some c) (ho : c.isOpen = true) :
    lookupA w (scan s).sessions = none ∧
      lookupA w (scan s).conns = some { c with isOpen := false } ∧
      procRunning (scan s) sess.ptyId = false := by
  obtain ⟨L1, L2, hL, h1, h2⟩ := openKeys_split (mem_openKeys hc ho)
  obtain ⟨f1, f2⟩ := foldl_scanOne_frame L1 s h1
  have e1 : scan s = List.foldl scanOne (scanOne (List.foldl scanOne s L1) w) L2 := by
    unfold scan
    rw [hL, List.foldl_append, List.foldl_cons]
  have e2 : scanOne (L1.foldl scanOne s) w
      = { L1.foldl scanOne s with
          conns := markClosed w (L1.foldl scanOne s).conns
          procs := killProc sess.ptyId (L1.foldl scanOne s).procs
          sessions := removeAssoc w (L1.foldl scanOne s).sessions } := by
    rw [scanOne_eq_dead (L1.foldl scanOne s) (f1.trans hs) ha]
    unfold onClose
    rw [closeHandler_eq_some
      ({ L1.foldl scanOne s with conns := markClosed w (L1.foldl scanOne s).conns })
      (show lookupA w ({ L1.foldl scanOne s with
        conns := markClosed w (L1.foldl scanOne s).conns }).sessions = some sess
        from f1.trans hs)]
  rw [e1, e2]
  obtain ⟨g1, g2⟩ := foldl_scanOne_frame L2
    ({ L1.foldl scanOne s with
       conns := markClosed w (L1.foldl scanOne s).conns
       procs := killProc sess.ptyId (L1.foldl scanOne s).procs
       sessions := removeAssoc w (L1.foldl scanOne s).sessions }) h2
  refine ⟨?_, ?_, ?_⟩
  · rw [g1]
    show lookupA w (removeAssoc w (L1.foldl scanOne s).sessions) = none
    exact lookupA_removeAssoc_self _ _
  · rw [g2]
    show lookupA w (mapAssoc w (fun c2 => { c2 with isOpen := false })
      (L1.foldl scanOne s).conns) = _
    rw [lookupA_mapAssoc_self, f2, hc]
    rfl
  · refine foldl_scanOne_not_running L2 _ _ ?_
    show runningIn (killProc sess.ptyId (L1.foldl scanOne s).procs) sess.ptyId = false
    unfold runningIn killProc
    rw [lookupA_mapAssoc_self]
    cases lookupA sess.ptyId (L1.foldl scanOne s).procs <;> simp

/-! ## Handler equation lemmas -/

/-- Killing a process makes it non-running, idempotently. -/
theorem runningIn_killProc_self (procs : List (Nat × PtyProc)) (pid : Nat) :
    runningIn (killProc pid procs) pid = false := by
  unfold runningIn killProc
  rw [lookupA_mapAssoc_self]
  cases lookupA pid procs <;> simp

/-- Running `onData` on an open socket appends the chunk to the wire. -/
theorem onData_eq_open (s : ServerState) {w : Nat} {c : Conn} (d : String)
    (hc : lookupA w s.conns = some c) (ho : c.isOpen = true) :
    onData s w d
      = { s with conns := mapAssoc w (fun c2 => { c2 with sent := c2.sent ++ [d] }) s.conns } := by
  unfold onData
  rw [hc]
  simp only [ho, if_true]

/-- An `input` message is written to the pty captured by the connection. -/
theorem onMessage_input_eq (s : ServerState) {w : Nat} {c : Conn} (d : String)
    (hc : lookupA w s.conns = some c) :
    onMessage s w (.input d)
      = { s with
          procs := mapAssoc c.ptyId (fun p => { p with written := p.written ++ [d] }) s.procs } := by
  unfold onMessage
  rw [hc]

/-- A `resize` message adjusts the captured pty's dimensions, with the
`|| 80` and `|| 24` fallbacks. -/
theorem onMessage_resize_eq (s : ServerState) {w : Nat} {c : Conn} (cols rows : Option Nat)
    (hc : lookupA w s.conns = some c) :
    onMessage s w (.resize cols rows)
      = { s with
          procs := mapAssoc c.ptyId
            (fun p => { p with cols := jsOr cols 80, rows := jsOr rows 24 }) s.procs } := by
  unfold onMessage
  rw [hc]

/-- A client that answers every probe, for a given number of
probe-interval rounds: each round is one scan tick followed by the
client's protocol pong. -/
def pongRounds (w : Nat) : Nat → ServerState → ServerState
  | 0, s => s
  | n + 1, s => pongRounds w n (onPong (scan s) w)

/-- A session that answers every probe stays registered and alive through
any number of rounds. -/
theorem pongRounds_alive (w pid : Nat) (n : Nat) :
    ∀ s : ServerState, lookupA w s.sessions = some { ptyId := pid, isAlive := true } →
      ∀ c : Conn, lookupA w s.conns = some c → c.isOpen = true →
        lookupA w (pongRounds w n s).sessions = some { ptyId := pid, isAlive := true } := by
  induction n with
  | zero => exact fun s hs c hc ho => hs
  | succ n ih =>
    intro s hs c hc ho
    obtain ⟨a1, a2⟩ := scan_alive s hs rfl hc ho
    show lookupA w (pongRounds w n (onPong (scan s) w)).sessions = _
    refine ih (onPong (scan s) w) ?_ { c with pings := c.pings + 1 } ?_ ho
    · show lookupA w (mapAssoc w (fun sess => { sess with isAlive := true })
        (scan s).sessions) = _
      rw [lookupA_mapAssoc_self, a1]
      rfl
    · show lookupA w (scan s).conns = _
      exact a2

/-- Deliver a sequence of pty output chunks through `ptyProcess.onData`. -/
def deliver (s : ServerState) (w : Nat) (ds : List String) : ServerState :=
  ds.foldl (fun t d => onData t w d) s

/-! ## The claims -/

/-- C1, counterexample: in the socket.io variant (`src/server/pty.ts`)
the claim fails — after two distinct browsers connect, both Sessions are
served by the same backend process, the single Python game server spawned
at setup, so a backend process is shared between two Sessions. -/
theorem C1_cex :
    backendOf (onBrowserConnect (onBrowserConnect sharedSetup 0) 1) 0
        = backendOf (onBrowserConnect (onBrowserConnect sharedSetup 0) 1) 1 ∧
      backendOf (onBrowserConnect (onBrowserConnect sharedSetup 0) 1) 0
        = some sharedPythonPid ∧
      (0 : Nat) ≠ 1 := by
  decide

/-- C1, amended: in the node-pty variant (part_009) the claim holds — in
every reachable server state, two Sessions registered under distinct
connections own distinct pty processes, because each connection event runs
its own `pty.spawn`. -/
theorem C1_process_isolation {s : ServerState} (hs : Reachable s)
    {w1 w2 : Nat} {s1 s2 : Session} (hne : w1 ≠ w2)
    (h1 : lookupA w1 s.sessions = some s1)
    (h2 : lookupA w2 s.sessions = some s2) : s1.ptyId ≠ s2.ptyId :=
  (inv_reachable hs).2 w1 w2 s1 s2 hne h1 h2

/-- C1, witness: the isolation theorem applied to the concrete state
reached by two connections. -/
theorem C1_witness :
    ({ ptyId := 0, isAlive := true } : Session).ptyId
      ≠ ({ ptyId := 1, isAlive := true } : Session).ptyId :=
  @C1_process_isolation (step (step initState (.connect 0)) (.connect 1))
    (Reachable.next (.connect 1) (Reachable.next (.connect 0) Reachable.init))
    0 1 { ptyId := 0, isAlive := true } { ptyId := 1, isAlive := true }
    (by decide) (by decide) (by decide)

/-- C2: after the backend exits with code 0 on an open transport, the
exit handler sends the session-ended notice but leaves the connection
open and issues no close code at all — while the repository's own client
(`terminal.tsx`) reports the graceful "Game Ended" status only on close
code 1000.  The graceful close the claim (and the client code) expects
never happens. -/
theorem C2_no_graceful_close :
    (lookupA 0 (run [.connect 0, .procExit 0]).conns).map
        (fun c => (c.isOpen, c.sentCloseCode, c.sent))
      = some (true, none, [sessionEndedNotice]) ∧
      statusOnClose 1000 = ConnStatus.ended := by
  decide

/-- C3: when a client connection closes, the handler kills the Session's
pty process and deletes the registry entry: afterwards the registry has
no entry for that connection and the process is no longer running. -/
theorem C3_disconnect_teardown (s : ServerState) (w : Nat) (sess : Session)
    (h : lookupA w s.sessions = some sess) :
    lookupA w (step s (.close w)).sessions = none ∧
      procRunning (step s (.close w)) sess.ptyId = false := by
  have e : step s (.close w)
      = { s with
          conns := markClosed w s.conns
          procs := killProc sess.ptyId s.procs
          sessions := removeAssoc w s.sessions } := by
    show onClose s w = _
    unfold onClose
    rw [closeHandler_eq_some { s with conns := markClosed w s.conns }
      (show lookupA w ({ s with conns := markClosed w s.conns } : ServerState).sessions
        = some sess from h)]
  rw [e]
  exact ⟨lookupA_removeAssoc_self _ _, runningIn_killProc_self _ _⟩

/-- C3, witness: teardown of the concrete one-client state. -/
theorem C3_witness :
    lookupA 0 (step (run [.connect 0]) (.close 0)).sessions = none ∧
      procRunning (step (run [.connect 0]) (.close 0)) 0 = false :=
  C3_disconnect_teardown (run [.connect 0]) 0 { ptyId := 0, isAlive := true } (by decide)

/-- C4, counterexample: after the backend exits on its own, the registry
still holds the Session even though its process is dead, and it keeps
holding it across further events — no removal is in flight. -/
theorem C4_cex :
    lookupA 0 (run [.connect 0, .procExit 0]).sessions
        = some { ptyId := 0, isAlive := true } ∧
      procRunning (run [.connect 0, .procExit 0]) 0 = false ∧
      lookupA 0 (run [.connect 0, .procExit 0, .message 0 (.input "look")]).sessions
        = some { ptyId := 0, isAlive := true } := by
  decide

/-- C4, amended: the process-exit handler never removes the Session from
the registry; only the client-disconnect paths (close or error) do, and
those always leave no entry behind. -/
theorem C4_exit_keeps_registry (s : ServerState) (w : Nat) :
    (step s (.procExit w)).sessions = s.sessions ∧
      lookupA w (step s (.close w)).sessions = none ∧
      lookupA w (step s (.error w)).sessions = none := by
  refine ⟨(onExit_sessions s w).1, ?_, ?_⟩ <;>
  · show lookupA w (onClose s w).sessions = none
    unfold onClose closeHandler
    split
    · next heq => exact heq
    · exact lookupA_removeAssoc_self _ _

/-- C5: one-missed-heartbeat eviction.  For a registered session that
answered the last probe (record `true`) on an open socket: the next scan
keeps it registered, resets the record and sends one more probe (not
evicted after zero missed intervals); if it never answers, the second
scan terminates the socket, kills the pty and removes the entry (evicted
after exactly one missed interval, not two); and a client that answers
every probe is never evicted, for any number of rounds. -/
theorem C5_one_missed_heartbeat (s : ServerState) (w pid : Nat) (c : Conn)
    (hs : lookupA w s.sessions = some { ptyId := pid, isAlive := true })
    (hc : lookupA w s.conns = some c) (ho : c.isOpen = true) :
    (lookupA w (scan s).sessions = some { ptyId := pid, isAlive := false } ∧
      lookupA w (scan s).conns = some { c with pings := c.pings + 1 }) ∧
    (lookupA w (scan (scan s)).sessions = none ∧
      (lookupA w (scan (scan s)).conns).map Conn.isOpen = some false ∧
      procRunning (scan (scan s)) pid = false) ∧
    (∀ n, lookupA w (pongRounds w n s).sessions
      = some { ptyId := pid, isAlive := true }) := by
  obtain ⟨a1, a2⟩ := scan_alive s hs rfl hc ho
  obtain ⟨b1, b2, b3⟩ := scan_dead (scan s) a1 rfl a2 ho
  refine ⟨⟨a1, a2⟩, ⟨b1, ?_, b3⟩, fun n => pongRounds_alive w pid n s hs c hc ho⟩
  rw [b2]
  rfl

/-- C5, witness: the heartbeat theorem applied to the concrete one-client
state. -/
theorem C5_witness :
    lookupA 0 (scan (run [.connect 0])).sessions
        = some { ptyId := 0, isAlive := false } ∧
      lookupA 0 (scan (scan (run [.connect 0]))).sessions = none ∧
      lookupA 0 (pongRounds 0 2 (run [.connect 0])).sessions
        = some { ptyId := 0, isAlive := true } := by
  have h := C5_one_missed_heartbeat (run [.connect 0]) 0 0
    { isOpen := true, ptyId := 0, sent := [], sentCloseCode := none, pings := 0 }
    (by decide) (by decide) (by decide)
  exact ⟨h.1.1, h.2.1.1, h.2.2 2⟩

/-- C6, counterexample: an ordinary well-formed `input` message does not
mark the Liveness Record true — a busy client that only sends input after
missing one probe is still marked dead and is evicted at the next scan. -/
theorem C6_cex :
    lookupA 0 (run [.connect 0, .tick, .message 0 (.input "go north")]).sessions
        = some { ptyId := 0, isAlive := false } ∧
      lookupA 0 (run [.connect 0, .tick, .message 0 (.input "go north"), .tick]).sessions
        = none := by
  decide

/-- C6, amended: only a protocol-level pong or an explicit
`{type:"ping"}` message marks the Liveness Record true; an ordinary
`input` message leaves the registry — and hence the record — completely
unchanged. -/
theorem C6_liveness_marking (s : ServerState) (w : Nat) (sess : Session) (d : String)
    (h : lookupA w s.sessions = some sess) :
    lookupA w (step s (.pong w)).sessions = some { sess with isAlive := true } ∧
      lookupA w (step s (.message w .ping)).sessions = some { sess with isAlive := true } ∧
      (step s (.message w (.input d))).sessions = s.sessions := by
  refine ⟨?_, ?_, ?_⟩
  · show lookupA w (mapAssoc w (fun s2 => { s2 with isAlive := true }) s.sessions) = _
    rw [lookupA_mapAssoc_self, h]
    rfl
  · show lookupA w (mapAssoc w (fun s2 => { s2 with isAlive := true }) s.sessions) = _
    rw [lookupA_mapAssoc_self, h]
    rfl
  · show (onMessage s w (.input d)).sessions = s.sessions
    unfold onMessage
    cases lookupA w s.conns with
    | none => rfl
    | some c => rfl

/-- C6, witness: the marking theorem applied to the concrete one-client
state. -/
theorem C6_witness :
    lookupA 0 (step (run [.connect 0]) (.pong 0)).sessions
        = some { ptyId := 0, isAlive := true } ∧
      lookupA 0 (step (run [.connect 0]) (.message 0 .ping)).sessions
        = some { ptyId := 0, isAlive := true } ∧
      (step (run [.connect 0]) (.message 0 (.input "n"))).sessions
        = (run [.connect 0]).sessions :=
  C6_liveness_marking (run [.connect 0]) 0 { ptyId := 0, isAlive := true } "n" (by decide)

/-- C7, counterexample: a parsed message with an unrecognized kind is
dropped silently — the state, including the console log, is completely
unchanged, so no warning is logged for unknown kinds (only unparseable
frames log one). -/
theorem C7_cex :
    (run [.connect 0, .message 0 (.other "unknown_kind")]).log = [] ∧
      run [.connect 0, .message 0 (.other "unknown_kind")] = run [.connect 0] := by
  decide

/-- C7, amended: a malformed (unparseable) message logs the parse warning
and touches nothing else; an unrecognized kind is dropped silently with
the state unchanged; in both cases the Session stays registered, its
process keeps running, and a follow-up well-formed `input` message is
still written to the process. -/
theorem C7_malformed_harmless (s : ServerState) (w : Nat) (k d : String)
    (c : Conn) (p : PtyProc)
    (hc : lookupA w s.conns = some c) (hp : lookupA c.ptyId s.procs = some p) :
    (step s (.message w .malformed)).log = s.log ++ [parseWarning] ∧
      (step s (.message w .malformed)).sessions = s.sessions ∧
      (step s (.message w .malformed)).conns = s.conns ∧
      (step s (.message w .malformed)).procs = s.procs ∧
      step s (.message w (.other k)) = s ∧
      lookupA c.ptyId
          (step (step s (.message w .malformed)) (.message w (.input d))).procs
        = some { p with written := p.written ++ [d] } := by
  refine ⟨rfl, rfl, rfl, rfl, rfl, ?_⟩
  show lookupA c.ptyId (onMessage (onMessage s w .malformed) w (.input d)).procs = _
  rw [onMessage_input_eq (onMessage s w .malformed) d
    (show lookupA w (onMessage s w .malformed).conns = some c from hc)]
  show lookupA c.ptyId
    (mapAssoc c.ptyId (fun p2 => { p2 with written := p2.written ++ [d] }) s.procs) = _
  rw [lookupA_mapAssoc_self, hp]
  rfl

/-- C7, witness: the harmlessness theorem applied to the concrete
one-client state. -/
theorem C7_witness :
    (step (run [.connect 0]) (.message 0 .malformed)).log = [] ++ [parseWarning] ∧
      (step (run [.connect 0]) (.message 0 .malformed)).sessions
        = (run [.connect 0]).sessions ∧
      (step (run [.connect 0]) (.message 0 .malformed)).conns
        = (run [.connect 0]).conns ∧
      (step (run [.connect 0]) (.message 0 .malformed)).procs
        = (run [.connect 0]).procs ∧
      step (run [.connect 0]) (.message 0 (.other "zzz")) = run [.connect 0] ∧
      lookupA 0
          (step (step (run [.connect 0]) (.message 0 .malformed))
            (.message 0 (.input "hi"))).procs
        = some { running := true, written := [] ++ ["hi"], cols := 80, rows := 24 } :=
  C7_malformed_harmless (run [.connect 0]) 0 "zzz" "hi"
    { isOpen := true, ptyId := 0, sent := [], sentCloseCode := none, pings := 0 }
    { running := true, written := [], cols := 80, rows := 24 }
    (by decide) (by decide)

/-- C8, counterexample: in the socket.io variant, after a backend
connection failure the browser transport is still open, the registry
entry is still present, and 4 of the 5 automatic reconnection attempts
remain — contradicting "closes the transport", "leaves no entry in the
Registry" and "never retries". -/
theorem C8_cex :
    (lookupA 0 (onConnectError (onBrowserConnect sharedSetup 0) 0).clientSockets).map
        (fun pc => (pc.browserOpen, pc.browserSent, pc.attemptsLeft))
      = some (true, [connectErrorNotice], 4) := by
  decide

/-- C8, amended: on a failed backend connection the proxy emits one
client-visible error notice per failed attempt, but leaves the browser
transport open and the registry entry in place, and the socket.io client
consumes one of its automatic reconnection attempts (it does retry). -/
theorem C8_connect_error (st : SharedProxy) (id : Nat) (pc : ProxyClient)
    (h : lookupA id st.clientSockets = some pc) :
    lookupA id (onConnectError st id).clientSockets
      = some { pc with
               browserSent := pc.browserSent ++ [connectErrorNotice]
               attemptsLeft := pc.attemptsLeft - 1 } := by
  show lookupA id (mapAssoc id _ st.clientSockets) = _
  rw [lookupA_mapAssoc_self, h]
  rfl

/-- C8, witness: the connect-error theorem applied to the concrete
one-browser state. -/
theorem C8_witness :
    lookupA 0 (onConnectError (onBrowserConnect sharedSetup 0) 0).clientSockets
      = some { browserOpen := true, browserSent := [] ++ [connectErrorNotice],
               attemptsLeft := 5 - 1 } :=
  C8_connect_error (onBrowserConnect sharedSetup 0) 0
    { browserOpen := true, browserSent := [], attemptsLeft := 5 } (by decide)

/-- C9: output chunks produced by the pty while the socket is open are
forwarded to the client exactly, in production order — the client's
received list is extended by precisely the emitted chunks, with no
reordering, dropping or coalescing. -/
theorem C9_output_order (s : ServerState) (w : Nat) (c : Conn) (ds : List String)
    (hc : lookupA w s.conns = some c) (ho : c.isOpen = true) :
    lookupA w (deliver s w ds).conns = some { c with sent := c.sent ++ ds } := by
  induction ds generalizing s c with
  | nil =>
    show lookupA w s.conns = _
    rw [hc, List.append_nil]
  | cons d tl ih =>
    show lookupA w (deliver (onData s w d) w tl).conns = _
    have hc2 : lookupA w (onData s w d).conns = some { c with sent := c.sent ++ [d] } := by
      rw [onData_eq_open s d hc ho]
      show lookupA w
        (mapAssoc w (fun c2 => { c2 with sent := c2.sent ++ [d] }) s.conns) = _
      rw [lookupA_mapAssoc_self, hc]
      rfl
    rw [ih (onData s w d) { c with sent := c.sent ++ [d] } hc2 ho]
    simp [List.append_assoc]

/-- C9, witness: three chunks delivered in order on the concrete
one-client state. -/
theorem C9_witness :
    lookupA 0 (deliver (run [.connect 0]) 0 ["a", "b", "c"]).conns
      = some { isOpen := true, ptyId := 0, sent := [] ++ ["a", "b", "c"],
               sentCloseCode := none, pings := 0 } :=
  C9_output_order (run [.connect 0]) 0
    { isOpen := true, ptyId := 0, sent := [], sentCloseCode := none, pings := 0 }
    ["a", "b", "c"] (by decide) (by decide)

/-- C10: a `resize` message resizes the captured pty to `cols || 80` and
`rows || 24` — missing or zero (falsy) fields fall back to the 80x24
defaults — and the message is never session-fatal: the registry and the
connections are untouched and the process's running flag is unchanged. -/
theorem C10_resize_defaults (s : ServerState) (w : Nat) (c : Conn) (p : PtyProc)
    (cols rows : Option Nat) (hc : lookupA w s.conns = some c)
    (hp : lookupA c.ptyId s.procs = some p) :
    lookupA c.ptyId (step s (.message w (.resize cols rows))).procs
        = some { p with cols := jsOr cols 80, rows := jsOr rows 24 } ∧
      (step s (.message w (.resize cols rows))).sessions = s.sessions ∧
      (step s (.message w (.resize cols rows))).conns = s.conns ∧
      ({ p with cols := jsOr cols 80, rows := jsOr rows 24 } : PtyProc).running
        = p.running ∧
      jsOr none 80 = 80 ∧ jsOr (some 0) 80 = 80 ∧
      jsOr none 24 = 24 ∧ jsOr (some 0) 24 = 24 := by
  have e : step s (.message w (.resize cols rows))
      = { s with
          procs := mapAssoc c.ptyId
            (fun p2 => { p2 with cols := jsOr cols 80, rows := jsOr rows 24 }) s.procs } :=
    onMessage_resize_eq s cols rows hc
  rw [e]
  refine ⟨?_, rfl, rfl, rfl, rfl, rfl, rfl, rfl⟩
  show lookupA c.ptyId
    (mapAssoc c.ptyId (fun p2 => { p2 with cols := jsOr cols 80, rows := jsOr rows 24 })
      s.procs) = _
  rw [lookupA_mapAssoc_self, hp]
  rfl

/-- C10, witness: a resize with a missing `cols` and a zero `rows` on the
concrete one-client state falls back to 80x24. -/
theorem C10_witness :
    lookupA 0 (step (run [.connect 0]) (.message 0 (.resize none (some 0)))).procs
        = some { running := true, written := [], cols := jsOr none 80,
                 rows := jsOr (some 0) 24 } ∧
      (step (run [.connect 0]) (.message 0 (.resize none (some 0)))).sessions
        = (run [.connect 0]).sessions := by
  have h := C10_resize_defaults (run [.connect 0]) 0
    { isOpen := true, ptyId := 0, sent := [], sentCloseCode := none, pings := 0 }
    { running := true, written := [], cols := 80, rows := 24 }
    none (some 0) (by decide) (by decide)
  exact ⟨h.1, h.2.1⟩

end Thopper
